import Mathlib

/-!
Shallow embedding of `media/libstagefright/AudioSource.cpp` (android_frameworks_base).

The member variables of `AudioSource` become the fields of `SState`; the
`read` pull path, the `dataCallbackTimestamp` push path, `start`, `stop`,
`signalBufferReturned`, `skipFrame`, `rampVolume`, `trackMaxAmplitude` and
`getMaxAmplitude` become functions on that state.  Device interactions
(`getPosition`, `getInputFramesLost`, `AudioRecord::read`, wall-clock reads)
are supplied as explicit inputs.  `CHECK`/`CHECK_EQ` assertion failures are a
distinguished `fatal` outcome.  Machine integers are modelled as `Int`/`Nat`;
the only narrowing that matters (16-bit sample negation in
`trackMaxAmplitude`, `rampVolume`) is made explicit through `toInt16`.
-/

namespace AudioSourceModel

/-- Two's-complement narrowing of an `int` value to `int16_t`, as performed by
the implicit conversions in `trackMaxAmplitude` and `rampVolume`. -/
def toInt16 (x : Int) : Int :=
  (x + 32768) % 65536 - 32768

/-- Configuration fixed at construction time.  `sampleRate` and `channelCount`
are the constructor arguments; `kMaxBufferSize` is the class-level buffer
capacity constant declared in the class header (not part of this file; the
spec calls it the "fixed max buffer size in bytes"); `latencyMs` models the
device's `latency()` report; `autoRampStartUs`/`autoRampDurationUs` are the
class-level ramp-window constants (the spec's configurable mute/ramp windows). -/
structure Config where
  sampleRate : Nat
  channelCount : Nat
  kMaxBufferSize : Nat
  latencyMs : Nat
  autoRampStartUs : Int
  autoRampDurationUs : Int
deriving Repr, DecidableEq

/-- Modelled from the spec: the device collaborator's `frameSize()` for 16-bit
PCM is 2 bytes per sample times the channel count (spec sections 4.3 and 6). -/
def Config.frameSize (c : Config) : Nat :=
  2 * c.channelCount

/-- Contents of a delivered media buffer.  `zeros n` is `n` bytes of zero fill
(`memset`); `pcm` is a run of 16-bit samples; `padded z smp` is `z` zero bytes
followed by the copied samples (the push path's lost-data layout). -/
inductive BufData where
  | zeros (n : Nat)
  | pcm (samples : List Int)
  | padded (zeroBytes : Nat) (samples : List Int)
deriving Repr, DecidableEq

/-- The sample view of buffer contents used by `trackMaxAmplitude`
(`n >> 1` 16-bit samples). -/
def BufData.asSamples : BufData → List Int
  | .zeros n => List.replicate (n / 2) 0
  | .pcm samples => samples
  | .padded z samples => List.replicate (z / 2) 0 ++ samples

/-- A media buffer together with the metadata attached by the source:
`kKeyAnchorTime` (only on the first buffer), `kKeyTime` and `kKeyDriftTime`,
plus the valid byte range set by `set_range`. -/
structure TimedBuffer where
  data : BufData
  rangeLength : Nat
  anchorTimeUs : Option Int
  keyTimeUs : Int
  driftTimeUs : Int
deriving Repr, DecidableEq

/-- The mutable member variables of `AudioSource`. -/
structure SState where
  mStarted : Bool
  mCollectStats : Bool
  mStartTimeUs : Int
  mPrevSampleTimeUs : Int
  mInitialReadTimeUs : Int
  mPrevLostBytes : Nat
  mNumFramesReceived : Nat
  mTotalLostFrames : Nat
  mTrackMaxAmplitude : Bool
  mMaxAmplitude : Int
  mNumClientOwnedBuffers : Int
  mBuffersReceived : List TimedBuffer
deriving Repr, DecidableEq

/-- State right after the constructor ran (its member initializer list sets
`mStarted`, `mCollectStats`, `mSampleRate`, `mPrevSampleTimeUs`,
`mTotalLostFrames`, `mPrevLostBytes`, `mNumFramesReceived`,
`mNumClientOwnedBuffers`; the remaining fields are first assigned in
`start()` and are taken as zero here). -/
def initialState : SState :=
  { mStarted := false
    mCollectStats := false
    mStartTimeUs := 0
    mPrevSampleTimeUs := 0
    mInitialReadTimeUs := 0
    mPrevLostBytes := 0
    mNumFramesReceived := 0
    mTotalLostFrames := 0
    mTrackMaxAmplitude := false
    mMaxAmplitude := 0
    mNumClientOwnedBuffers := 0
    mBuffersReceived := [] }

inductive StartResult where
  | alreadyStarted
  | deviceError (s : SState)
  | ok (s : SState)
deriving Repr, DecidableEq

/-- `AudioSource::start`.  `statsProperty` is the value of the
`media.stagefright.record-stats` system property, `startTimeHint` the
`kKeyTime` entry of the `MetaData` parameters, `deviceStartOk` the result of
`mRecord->start()`.  Construction is assumed to have succeeded
(`mInitCheck == OK`). -/
def start (statsProperty : Bool) (startTimeHint : Option Int) (deviceStartOk : Bool)
    (s : SState) : StartResult :=
  if s.mStarted then .alreadyStarted
  else
    let s1 := if statsProperty then { s with mCollectStats := true } else s
    let s2 := { s1 with
      mTrackMaxAmplitude := false
      mMaxAmplitude := 0
      mInitialReadTimeUs := 0
      mStartTimeUs := match startTimeHint with | some t => t | none => 0 }
    if deviceStartOk then .ok { s2 with mStarted := true } else .deviceError s2

inductive StopResult where
  | alreadyStopped
  | ok (s : SState)
deriving Repr, DecidableEq

/-- Loop condition of `waitOutstandingEncodingFrames_l`: `stop()` keeps
waiting on `mFrameEncodingCompletionCondition` exactly while this is true. -/
def waitOutstandingWouldBlock (s : SState) : Bool :=
  decide (0 < s.mNumClientOwnedBuffers)

/-- `AudioSource::stop`: marks the session stopped, stops the device, waits
for outstanding client-owned buffers (the wait itself is modelled by
`waitOutstandingWouldBlock`) and releases the queued frames. -/
def stop (s : SState) : StopResult :=
  if ¬ s.mStarted then .alreadyStopped
  else .ok { s with mStarted := false, mBuffersReceived := [] }

/-- `AudioSource::signalBufferReturned`: the consumer returns a buffer. -/
def signalBufferReturned (s : SState) : SState :=
  { s with mNumClientOwnedBuffers := s.mNumClientOwnedBuffers - 1 }

/-- The file-static `skipFrame` helper: `-1` when the requested skip is too
long, `0` when no skipping is needed, `1` when frames must be skipped.
`options` carries the `kSkipFrame_Option` target timestamp when present. -/
def skipFrame (timestampUs : Int) (options : Option Int) : Int :=
  match options with
  | none => 0
  | some skipFrameUs =>
    if skipFrameUs ≤ timestampUs then 0
    else if 1000000 ≤ skipFrameUs - timestampUs then -1
    else 1

/-- The rounded byte-count-to-duration conversion
`((1000000LL * (bytes >> 1)) + (sampleRate >> 1)) / sampleRate` used by the
pull-mode lost-data branch and by the push path. -/
def roundedDurationUs (sampleRate numBytes : Nat) : Int :=
  ((1000000 * (numBytes / 2) + sampleRate / 2) / sampleRate : Nat)

/-- The truncating conversion `(1000000LL * n >> 1) / sampleRate` used by the
pull-mode real-data branch for `n` bytes returned by the device read. -/
def truncatedDurationUs (sampleRate : Nat) (n : Int) : Int :=
  1000000 * n / 2 / (sampleRate : Int)

/-- Inner loop of `AudioSource::rampVolume`: walks the 16-bit frames,
scaling by the fixed-point multiplier and refreshing it every 4 frames.
C's truncating `int` division is `Int.tdiv`; the arithmetic right shift of a
possibly negative product is `Int.fdiv`. -/
def rampLoop (nChannels : Nat) (rampDurationFrames : Int) :
    Int → Int → Int → List Int → List Int
  | _, _, _, [] => []
  | startFrame, stopFrame, fixedMultiplier, f :: rest =>
    if startFrame < stopFrame then
      if nChannels = 1 then
        let f1 := toInt16 (Int.fdiv (f * fixedMultiplier) 16384)
        let sf := startFrame + 1
        let m := if sf % 4 = 0 then Int.tdiv (sf * 16384) rampDurationFrames
                 else fixedMultiplier
        f1 :: rampLoop nChannels rampDurationFrames sf stopFrame m rest
      else
        match rest with
        | [] => [toInt16 (Int.fdiv (f * fixedMultiplier) 16384)]
        | g :: rest2 =>
          let f1 := toInt16 (Int.fdiv (f * fixedMultiplier) 16384)
          let g1 := toInt16 (Int.fdiv (g * fixedMultiplier) 16384)
          let sf := startFrame + 2
          let m := if sf % 4 = 0 then Int.tdiv (sf * 16384) rampDurationFrames
                   else fixedMultiplier
          f1 :: g1 :: rampLoop nChannels rampDurationFrames sf stopFrame m rest2
    else f :: rest

/-- `AudioSource::rampVolume` on a buffer of `bytes` bytes whose samples are
`samples`. -/
def rampVolume (cfg : Config) (startFrame rampDurationFrames : Int)
    (samples : List Int) (bytes : Int) : List Int :=
  let fixedMultiplier := Int.tdiv (startFrame * 16384) rampDurationFrames
  let stopFrame0 := startFrame + bytes / 2
  let stopFrame := if rampDurationFrames < stopFrame0 then rampDurationFrames else stopFrame0
  rampLoop cfg.channelCount rampDurationFrames startFrame stopFrame fixedMultiplier samples

/-- `AudioSource::trackMaxAmplitude` folded over the buffer's samples:
negate negative samples (with `int16_t` wrap-around) and keep the running
maximum. -/
def trackMaxAmplitude (mMaxAmplitude : Int) (data : List Int) : Int :=
  data.foldl
    (fun m v =>
      let v1 := if v < 0 then toInt16 (-v) else v
      if m < v1 then v1 else m)
    mMaxAmplitude

/-- `AudioSource::getMaxAmplitude`: the first call turns tracking on; the
current peak is returned and reset to zero. -/
def getMaxAmplitude (s : SState) : Int × SState :=
  let s1 := if ¬ s.mTrackMaxAmplitude then { s with mTrackMaxAmplitude := true } else s
  (s1.mMaxAmplitude, { s1 with mMaxAmplitude := 0 })

/-- First-data anchor setup at the top of the `read` loop: when no frames
have been recorded yet and the media-time cursor is still zero, record the
wall-clock of this read, turn a positive start-time hint into
`readTimeUs - hint`, otherwise add the device latency, and seed the cursor. -/
def pullInit (cfg : Config) (readTimeUs : Int) (numFramesRecorded : Nat)
    (s : SState) : SState :=
  if numFramesRecorded = 0 ∧ s.mPrevSampleTimeUs = 0 then
    let s1 := { s with mInitialReadTimeUs := readTimeUs }
    let s2 :=
      if 0 < s1.mStartTimeUs then { s1 with mStartTimeUs := readTimeUs - s1.mStartTimeUs }
      else { s1 with mStartTimeUs := s1.mStartTimeUs + (cfg.latencyMs : Int) * 1000 }
    { s2 with mPrevSampleTimeUs := s2.mStartTimeUs }
  else s

/-- Device responses consumed by one iteration of the `read` loop:
the `getPosition` value, the `getInputFramesLost` value, the return value of
`mRecord->read` and the samples it filled in. -/
structure PullIter where
  position : Nat
  framesLost : Nat
  readBytes : Int
  samples : List Int
deriving Repr, DecidableEq

/-- Outcome of one iteration of the `read` loop. -/
inductive IterResult where
  | fatal
  | readError (s : SState)
  | continueLoop (s : SState)
  | deliver (b : TimedBuffer) (s : SState)
deriving Repr, DecidableEq

/-- Mute/ramp processing and amplitude tracking applied to real data in the
pull path (the block between the device read and the metadata attachment). -/
def processPCM (cfg : Config) (s : SState) (numFramesRecorded : Nat) (n : Int)
    (samples : List Int) : BufData × SState :=
  let dataOut : BufData :=
    if s.mPrevSampleTimeUs - s.mStartTimeUs < cfg.autoRampStartUs then
      .zeros n.toNat
    else if s.mPrevSampleTimeUs - s.mStartTimeUs <
        cfg.autoRampStartUs + cfg.autoRampDurationUs then
      let autoRampDurationFrames :=
        (cfg.autoRampDurationUs * (cfg.sampleRate : Int) + 500000) / 1000000
      let autoRampStartFrames :=
        (cfg.autoRampStartUs * (cfg.sampleRate : Int) + 500000) / 1000000
      let nFrames := (numFramesRecorded : Int) - autoRampStartFrames
      .pcm (rampVolume cfg nFrames autoRampDurationFrames samples n)
    else .pcm samples
  let s1 :=
    if s.mTrackMaxAmplitude then
      { s with mMaxAmplitude := trackMaxAmplitude s.mMaxAmplitude dataOut.asSamples }
    else s
  (dataOut, s1)

/-- One iteration of the `while (mStarted)` loop of `AudioSource::read`.
`readTimeUs` is the wall clock taken at the top of the call; `options`
carries the skip-frame target. -/
def pullIterate (cfg : Config) (readTimeUs : Int) (options : Option Int)
    (s : SState) (it : PullIter) : IterResult :=
  let s1 := pullInit cfg readTimeUs it.position s
  let lost0 := it.framesLost * 2 + s1.mPrevLostBytes
  if 0 < lost0 then
    let numLostBytes := min lost0 cfg.kMaxBufferSize
    let s2 := { s1 with mPrevLostBytes := lost0 - cfg.kMaxBufferSize }
    if numLostBytes % 2 ≠ 0 then .fatal
    else
      let timestampUs := s2.mPrevSampleTimeUs + roundedDurationUs cfg.sampleRate numLostBytes
      if ¬ s2.mPrevSampleTimeUs < timestampUs then .fatal
      else
        let s3 :=
          if s2.mCollectStats then
            { s2 with mTotalLostFrames := s2.mTotalLostFrames + numLostBytes / 2 }
          else s2
        if skipFrame timestampUs options = -1 then .readError s3
        else if skipFrame timestampUs options ≠ 0 then .continueLoop s3
        else
          .deliver
            { data := .zeros numLostBytes
              rangeLength := numLostBytes
              anchorTimeUs := if it.position = 0 then some s3.mStartTimeUs else none
              keyTimeUs := s3.mStartTimeUs + s3.mPrevSampleTimeUs
              driftTimeUs := readTimeUs - s3.mInitialReadTimeUs }
            { s3 with mPrevSampleTimeUs := timestampUs }
  else
    if it.readBytes ≤ 0 then .readError s1
    else
      let timestampUs :=
        s1.mPrevSampleTimeUs + truncatedDurationUs cfg.sampleRate it.readBytes
      if skipFrame timestampUs options = -1 then .readError s1
      else if skipFrame timestampUs options ≠ 0 then .continueLoop s1
      else
        let pd := processPCM cfg s1 it.position it.readBytes it.samples
        if ¬ pd.2.mPrevSampleTimeUs < timestampUs then .fatal
        else
          .deliver
            { data := pd.1
              rangeLength := it.readBytes.toNat
              anchorTimeUs := if it.position = 0 then some s1.mStartTimeUs else none
              keyTimeUs := s1.mStartTimeUs + s1.mPrevSampleTimeUs
              driftTimeUs := readTimeUs - s1.mInitialReadTimeUs }
            { pd.2 with mPrevSampleTimeUs := timestampUs }

/-- Result of a whole `read` call. -/
inductive ReadResult where
  | fatal
  | error (s : SState)
  | delivered (b : TimedBuffer) (s : SState)
  | okNull (s : SState)
  | outOfTrace
deriving Repr, DecidableEq

/-- The `while (mStarted)` loop, driven by the list of per-iteration device
responses.  An exhausted trace is reported as `outOfTrace`. -/
def pullLoop (cfg : Config) (readTimeUs : Int) (options : Option Int) :
    SState → List PullIter → ReadResult
  | _, [] => .outOfTrace
  | s, it :: rest =>
    match pullIterate cfg readTimeUs options s it with
    | .fatal => .fatal
    | .readError s1 => .error s1
    | .deliver b s1 => .delivered b s1
    | .continueLoop s1 => pullLoop cfg readTimeUs options s1 rest

/-- `AudioSource::read`: with the lock held, `mStarted` cannot change during
the call; when the session is not started the loop body never runs and the
call returns `OK` with a null output buffer. -/
def read (cfg : Config) (readTimeUs : Int) (options : Option Int) (s : SState)
    (iters : List PullIter) : ReadResult :=
  if s.mStarted then pullLoop cfg readTimeUs options s iters else .okNull s

/-- Result of one `dataCallbackTimestamp` invocation. -/
inductive PushResult where
  | fatal
  | dropped (s : SState)
  | queued (b : TimedBuffer) (s : SState)
deriving Repr, DecidableEq

/-- First-data anchor setup of the push path (same computation as `pullInit`,
but keyed on `mNumFramesReceived` and the callback wall clock). -/
def pushInit (cfg : Config) (timeUs : Int) (s : SState) : SState :=
  if s.mNumFramesReceived = 0 ∧ s.mPrevSampleTimeUs = 0 then
    let s1 := { s with mInitialReadTimeUs := timeUs }
    let s2 :=
      if 0 < s1.mStartTimeUs then { s1 with mStartTimeUs := timeUs - s1.mStartTimeUs }
      else { s1 with mStartTimeUs := s1.mStartTimeUs + (cfg.latencyMs : Int) * 1000 }
    { s2 with mPrevSampleTimeUs := s2.mStartTimeUs }
  else s

/-- Common tail of the push path: attach metadata, advance the cursor, count
the received frames and append the buffer to the pending queue. -/
def pushDeliver (cfg : Config) (s : SState) (timeUs : Int) (bufferSize : Nat)
    (d : BufData) : PushResult :=
  let timestampUs := s.mPrevSampleTimeUs + roundedDurationUs cfg.sampleRate bufferSize
  let b : TimedBuffer :=
    { data := d
      rangeLength := bufferSize
      anchorTimeUs := if s.mNumFramesReceived = 0 then some s.mStartTimeUs else none
      keyTimeUs := s.mPrevSampleTimeUs
      driftTimeUs := timeUs - s.mInitialReadTimeUs }
  .queued b
    { s with
      mPrevSampleTimeUs := timestampUs
      mNumFramesReceived := s.mNumFramesReceived + bufferSize / 2
      mBuffersReceived := s.mBuffersReceived ++ [b] }

/-- `AudioSource::dataCallbackTimestamp`: `timeUs` is the callback wall
clock, `framesLost` the device's `getInputFramesLost()` report, `sizeBytes`
the callback buffer's byte count and `samples` its contents. -/
def dataCallbackTimestamp (cfg : Config) (s : SState) (timeUs : Int)
    (framesLost : Nat) (sizeBytes : Nat) (samples : List Int) : PushResult :=
  if ¬ s.mStarted then .dropped s
  else if s.mNumFramesReceived = 0 ∧ timeUs < s.mStartTimeUs then .dropped s
  else
    let s1 := pushInit cfg timeUs s
    let numLostBytes := if 0 < s1.mNumFramesReceived then framesLost * cfg.frameSize else 0
    if numLostBytes % 2 ≠ 0 then .fatal
    else if sizeBytes % 2 ≠ 0 then .fatal
    else
      let bufferSize := numLostBytes + sizeBytes
      if 0 < numLostBytes then
        pushDeliver cfg s1 timeUs bufferSize (.padded numLostBytes samples)
      else if sizeBytes = 0 then .dropped s1
      else pushDeliver cfg s1 timeUs bufferSize (.pcm samples)

/-- One producer event of a session: a pull-mode `read` call or one push-mode
device callback. -/
inductive SEvent where
  | pullEv (readTimeUs : Int) (options : Option Int) (iters : List PullIter)
  | pushEv (timeUs : Int) (framesLost : Nat) (sizeBytes : Nat) (samples : List Int)
deriving Repr, DecidableEq

def SEvent.isPull : SEvent → Bool
  | .pullEv _ _ _ => true
  | .pushEv _ _ _ _ => false

/-- Run one event; `some` exactly when a buffer is handed to the consumer
(pull) or appended to the pending queue (push). -/
def stepEvent (cfg : Config) (s : SState) : SEvent → Option (TimedBuffer × SState)
  | .pullEv rt opts iters =>
    match read cfg rt opts s iters with
    | .delivered b s1 => some (b, s1)
    | _ => none
  | .pushEv t l sz smp =>
    match dataCallbackTimestamp cfg s t l sz smp with
    | .queued b s1 => some (b, s1)
    | _ => none

/-- Run a list of events, collecting the delivered buffers in order; `none`
as soon as some event fails to deliver a buffer. -/
def runEvents (cfg : Config) : SState → List SEvent → Option (List TimedBuffer × SState)
  | s, [] => some ([], s)
  | s, e :: rest =>
    match stepEvent cfg s e with
    | none => none
    | some (b, s1) =>
      match runEvents cfg s1 rest with
      | none => none
      | some (bs, sf) => some (b :: bs, sf)

/-- Media timestamps of the delivered buffers of a run, in delivery order. -/
def deliveredKeyTimes (r : Option (List TimedBuffer × SState)) : Option (List Int) :=
  r.map (fun p => p.1.map TimedBuffer.keyTimeUs)

def ReadResult.keyTime? : ReadResult → Option Int
  | .delivered b _ => some b.keyTimeUs
  | _ => none

def ReadResult.driftTime? : ReadResult → Option Int
  | .delivered b _ => some b.driftTimeUs
  | _ => none

def ReadResult.range? : ReadResult → Option Nat
  | .delivered b _ => some b.rangeLength
  | _ => none

def ReadResult.bufData? : ReadResult → Option BufData
  | .delivered b _ => some b.data
  | _ => none

def ReadResult.postCursor? : ReadResult → Option Int
  | .delivered _ s => some s.mPrevSampleTimeUs
  | _ => none

def ReadResult.postPrevLostBytes? : ReadResult → Option Nat
  | .delivered _ s => some s.mPrevLostBytes
  | _ => none

def ReadResult.postClientOwned? : ReadResult → Option Int
  | .delivered _ s => some s.mNumClientOwnedBuffers
  | _ => none

def ReadResult.isError : ReadResult → Bool
  | .error _ => true
  | _ => false

def ReadResult.isDelivered : ReadResult → Bool
  | .delivered _ _ => true
  | _ => false

def IterResult.isContinue : IterResult → Bool
  | .continueLoop _ => true
  | _ => false

def IterResult.isReadError : IterResult → Bool
  | .readError _ => true
  | _ => false

def IterResult.keyTime? : IterResult → Option Int
  | .deliver b _ => some b.keyTimeUs
  | _ => none

def IterResult.range? : IterResult → Option Nat
  | .deliver b _ => some b.rangeLength
  | _ => none

def IterResult.bufData? : IterResult → Option BufData
  | .deliver b _ => some b.data
  | _ => none

def IterResult.postCursor? : IterResult → Option Int
  | .deliver _ s => some s.mPrevSampleTimeUs
  | _ => none

def IterResult.postPrevLostBytes? : IterResult → Option Nat
  | .deliver _ s => some s.mPrevLostBytes
  | _ => none

def PushResult.keyTime? : PushResult → Option Int
  | .queued b _ => some b.keyTimeUs
  | _ => none

def PushResult.driftTime? : PushResult → Option Int
  | .queued b _ => some b.driftTimeUs
  | _ => none

def PushResult.range? : PushResult → Option Nat
  | .queued b _ => some b.rangeLength
  | _ => none

def PushResult.bufData? : PushResult → Option BufData
  | .queued b _ => some b.data
  | _ => none

def PushResult.postCursor? : PushResult → Option Int
  | .queued _ s => some s.mPrevSampleTimeUs
  | _ => none

def PushResult.postStart? : PushResult → Option Int
  | .queued _ s => some s.mStartTimeUs
  | _ => none

def PushResult.postPrevLostBytes? : PushResult → Option Nat
  | .queued _ s => some s.mPrevLostBytes
  | _ => none

def StartResult.post? : StartResult → Option SState
  | .ok s => some s
  | .deviceError s => some s
  | .alreadyStarted => none

/-- A freshly started session: `start` on a constructed object, no start-time
hint, statistics off, device start succeeding. -/
def freshStarted : SState :=
  { initialState with mStarted := true }


/-! ### Helper lemmas about the delivery paths -/

theorem pullInit_of_cursor_ne (cfg : Config) (rt : Int) (pos : Nat) (s : SState)
    (h : s.mPrevSampleTimeUs ≠ 0) : pullInit cfg rt pos s = s := by
  unfold pullInit
  exact if_neg (fun hc => h hc.2)

theorem pushInit_of_cursor_ne (cfg : Config) (t : Int) (s : SState)
    (h : s.mPrevSampleTimeUs ≠ 0) : pushInit cfg t s = s := by
  unfold pushInit
  exact if_neg (fun hc => h hc.2)

theorem processPCM_snd (cfg : Config) (s : SState) (pos : Nat) (n : Int)
    (smp : List Int) :
    (processPCM cfg s pos n smp).2 =
      { s with mMaxAmplitude := (processPCM cfg s pos n smp).2.mMaxAmplitude } := by
  unfold processPCM
  dsimp only
  split <;> rfl

theorem processPCM_snd_mPrevSampleTimeUs (cfg : Config) (s : SState) (pos : Nat)
    (n : Int) (smp : List Int) :
    (processPCM cfg s pos n smp).2.mPrevSampleTimeUs = s.mPrevSampleTimeUs := by
  rw [processPCM_snd]

/-- Characterization of a buffer delivery by one pull-loop iteration, from a
state whose media-time cursor is already established (nonzero, so the
first-data block does not run). -/
theorem pullIterate_deliver_char (cfg : Config) (rt : Int) (opts : Option Int)
    (s : SState) (it : PullIter) (b : TimedBuffer) (s' : SState)
    (hcur : s.mPrevSampleTimeUs ≠ 0)
    (h : pullIterate cfg rt opts s it = .deliver b s') :
    b.keyTimeUs = s.mStartTimeUs + s.mPrevSampleTimeUs ∧
    b.driftTimeUs = rt - s.mInitialReadTimeUs ∧
    s'.mStartTimeUs = s.mStartTimeUs ∧
    s'.mInitialReadTimeUs = s.mInitialReadTimeUs ∧
    s.mPrevSampleTimeUs < s'.mPrevSampleTimeUs ∧
    s'.mStarted = s.mStarted ∧
    s'.mNumClientOwnedBuffers = s.mNumClientOwnedBuffers := by
  unfold pullIterate at h
  rw [pullInit_of_cursor_ne cfg rt it.position s hcur] at h
  dsimp only at h
  split_ifs at h with h1 h2 h3 h4 h5 h6 h7 h8 h9 h10 h11 h12 h13 h14
  all_goals try exact IterResult.noConfusion h
  all_goals
    injection h with hb hs
    subst hb
    subst hs
    try rw [processPCM_snd]
    refine ⟨rfl, rfl, rfl, rfl, ?_, rfl, rfl⟩
    dsimp only
    simp only [processPCM_snd_mPrevSampleTimeUs] at *
    omega

/-- A `continue` outcome of one pull-loop iteration (skip-frame looping)
leaves the timestamp bookkeeping untouched. -/
theorem pullIterate_continue_char (cfg : Config) (rt : Int) (opts : Option Int)
    (s : SState) (it : PullIter) (s' : SState)
    (hcur : s.mPrevSampleTimeUs ≠ 0)
    (h : pullIterate cfg rt opts s it = .continueLoop s') :
    s'.mStartTimeUs = s.mStartTimeUs ∧
    s'.mInitialReadTimeUs = s.mInitialReadTimeUs ∧
    s'.mPrevSampleTimeUs = s.mPrevSampleTimeUs ∧
    s'.mStarted = s.mStarted ∧
    s'.mNumClientOwnedBuffers = s.mNumClientOwnedBuffers := by
  unfold pullIterate at h
  rw [pullInit_of_cursor_ne cfg rt it.position s hcur] at h
  dsimp only at h
  split_ifs at h with h1 h2 h3 h4 h5 h6 h7 h8 h9 h10 h11 h12
  all_goals try exact IterResult.noConfusion h
  all_goals
    injection h with hs
    subst hs
    exact ⟨rfl, rfl, rfl, rfl, rfl⟩

/-- Characterization of a delivered buffer over the whole pull loop: the
skip-frame iterations leave the bookkeeping untouched, so the delivered
buffer carries the timestamp determined by the entry state. -/
theorem pullLoop_delivered_char (cfg : Config) (rt : Int) (opts : Option Int) :
    ∀ (iters : List PullIter) (s : SState) (b : TimedBuffer) (s' : SState),
      s.mPrevSampleTimeUs ≠ 0 →
      pullLoop cfg rt opts s iters = .delivered b s' →
      b.keyTimeUs = s.mStartTimeUs + s.mPrevSampleTimeUs ∧
      b.driftTimeUs = rt - s.mInitialReadTimeUs ∧
      s'.mStartTimeUs = s.mStartTimeUs ∧
      s'.mInitialReadTimeUs = s.mInitialReadTimeUs ∧
      s.mPrevSampleTimeUs < s'.mPrevSampleTimeUs ∧
      s'.mStarted = s.mStarted ∧
      s'.mNumClientOwnedBuffers = s.mNumClientOwnedBuffers := by
  intro iters
  induction iters with
  | nil =>
    intro s b s' hcur h
    exact ReadResult.noConfusion h
  | cons it rest ih =>
    intro s b s' hcur h
    unfold pullLoop at h
    cases hit : pullIterate cfg rt opts s it with
    | fatal => rw [hit] at h; exact ReadResult.noConfusion h
    | readError s1 => rw [hit] at h; exact ReadResult.noConfusion h
    | deliver b1 s1 =>
      rw [hit] at h
      dsimp only at h
      injection h with hb hs
      subst hb
      subst hs
      exact pullIterate_deliver_char cfg rt opts s it _ _ hcur hit
    | continueLoop s1 =>
      rw [hit] at h
      dsimp only at h
      obtain ⟨e1, e2, e3, e4, e5⟩ := pullIterate_continue_char cfg rt opts s it s1 hcur hit
      have hcur1 : s1.mPrevSampleTimeUs ≠ 0 := by rw [e3]; exact hcur
      obtain ⟨k1, k2, k3, k4, k5, k6, k7⟩ := ih s1 b s' hcur1 h
      refine ⟨by rw [k1, e1, e3], by rw [k2, e2], by rw [k3, e1], by rw [k4, e2],
        by omega, by rw [k6, e4], by rw [k7, e5]⟩

/-- Characterization of a queued buffer in the push path, from a state whose
media-time cursor is already established. -/
theorem push_queued_char (cfg : Config) (s : SState) (t : Int) (l sz : Nat)
    (smp : List Int) (b : TimedBuffer) (s' : SState)
    (hcur : s.mPrevSampleTimeUs ≠ 0)
    (h : dataCallbackTimestamp cfg s t l sz smp = .queued b s') :
    b.keyTimeUs = s.mPrevSampleTimeUs ∧
    b.driftTimeUs = t - s.mInitialReadTimeUs ∧
    s'.mStartTimeUs = s.mStartTimeUs ∧
    s'.mInitialReadTimeUs = s.mInitialReadTimeUs ∧
    s'.mPrevSampleTimeUs =
      s.mPrevSampleTimeUs + roundedDurationUs cfg.sampleRate b.rangeLength ∧
    0 < b.rangeLength ∧ b.rangeLength % 2 = 0 ∧
    s'.mStarted = s.mStarted ∧
    s'.mNumClientOwnedBuffers = s.mNumClientOwnedBuffers := by
  unfold dataCallbackTimestamp pushDeliver at h
  rw [pushInit_of_cursor_ne cfg t s hcur] at h
  dsimp only at h
  split_ifs at h with h1 h2 h3 h4 h5 h6 h7 h8
  all_goals try exact PushResult.noConfusion h
  all_goals
    injection h with hb hs
    subst hb
    subst hs
    refine ⟨rfl, rfl, rfl, rfl, rfl, ?_, ?_, rfl, rfl⟩ <;> dsimp only <;> omega

/-- The rounded duration of a nonempty buffer is positive for any realistic
sample rate. -/
theorem roundedDurationUs_pos (sr nb : Nat) (h1 : 0 < sr) (h2 : sr ≤ 1000000)
    (h3 : 2 ≤ nb) : 0 < roundedDurationUs sr nb := by
  unfold roundedDurationUs
  have hnb : 1 ≤ nb / 2 := by omega
  have hle : sr ≤ 1000000 * (nb / 2) + sr / 2 := by
    have : 1000000 * 1 ≤ 1000000 * (nb / 2) := Nat.mul_le_mul_left 1000000 hnb
    omega
  have := (Nat.one_le_div_iff h1).mpr hle
  exact_mod_cast this

/-- In a pull-only event trace from an established state, the attached media
timestamps of the delivered buffers are strictly increasing, and all lie at or
above `mStartTimeUs + mPrevSampleTimeUs` of the entry state. -/
theorem runEvents_pull_char (cfg : Config) :
    ∀ (evs : List SEvent) (s : SState) (bs : List TimedBuffer) (sf : SState),
      (∀ e ∈ evs, e.isPull = true) →
      0 < s.mPrevSampleTimeUs →
      runEvents cfg s evs = some (bs, sf) →
      List.Chain' (fun a b => a.keyTimeUs < b.keyTimeUs) bs ∧
      ∀ b ∈ bs, s.mStartTimeUs + s.mPrevSampleTimeUs ≤ b.keyTimeUs := by
  intro evs
  induction evs with
  | nil =>
    intro s bs sf _ _ h
    unfold runEvents at h
    injection h with hp
    injection hp with hbs hsf
    subst hbs
    exact ⟨List.chain'_nil, by intro b hb; exact absurd hb (List.not_mem_nil b)⟩
  | cons e rest ih =>
    intro s bs sf hall hcur h
    unfold runEvents at h
    cases hstep : stepEvent cfg s e with
    | none => rw [hstep] at h; exact Option.noConfusion h
    | some p =>
      obtain ⟨b0, s1⟩ := p
      rw [hstep] at h
      dsimp only at h
      cases hrun : runEvents cfg s1 rest with
      | none => rw [hrun] at h; exact Option.noConfusion h
      | some q =>
        obtain ⟨bs1, sf1⟩ := q
        rw [hrun] at h
        dsimp only at h
        injection h with hp
        injection hp with hbs hsf
        subst hbs
        subst hsf
        have he : e.isPull = true := hall e (List.mem_cons_self e rest)
        cases e with
        | pushEv t l sz smp => exact Bool.noConfusion he
        | pullEv rt opts iters =>
          unfold stepEvent read at hstep
          dsimp only at hstep
          by_cases hstart : s.mStarted
          · rw [if_pos hstart] at hstep
            cases hpl : pullLoop cfg rt opts s iters with
            | fatal => rw [hpl] at hstep; exact Option.noConfusion hstep
            | error s2 => rw [hpl] at hstep; exact Option.noConfusion hstep
            | okNull s2 => rw [hpl] at hstep; exact Option.noConfusion hstep
            | outOfTrace => rw [hpl] at hstep; exact Option.noConfusion hstep
            | delivered b1 s2 =>
              rw [hpl] at hstep
              dsimp only at hstep
              injection hstep with hp2
              injection hp2 with hb0 hs1
              subst hb0
              subst hs1
              obtain ⟨c1, c2, c3, c4, c5, c6, c7⟩ :=
                pullLoop_delivered_char cfg rt opts iters s b1 s2 (by omega) hpl
              have hall1 : ∀ e2 ∈ rest, e2.isPull = true :=
                fun e2 he2 => hall e2 (List.mem_cons_of_mem _ he2)
              obtain ⟨ihc, ihb⟩ := ih s2 bs1 sf1 hall1 (by omega) hrun
              constructor
              · refine ihc.cons' ?_
                intro y hy
                have hy2 : y ∈ bs1 := by
                  rw [List.eq_cons_of_mem_head? hy]
                  exact List.mem_cons_self _ _
                have := ihb y hy2
                omega
              · intro b hb
                rcases List.mem_cons.mp hb with hb | hb
                · subst hb
                  omega
                · have := ihb b hb
                  omega
          · rw [if_neg hstart] at hstep
            dsimp only at hstep
            exact Option.noConfusion hstep

/-- In a push-only event trace from an established state with a realistic
sample rate, the attached media timestamps are strictly increasing and lie at
or above `mPrevSampleTimeUs` of the entry state. -/
theorem runEvents_push_char (cfg : Config) (hs1 : 0 < cfg.sampleRate)
    (hs2 : cfg.sampleRate ≤ 1000000) :
    ∀ (evs : List SEvent) (s : SState) (bs : List TimedBuffer) (sf : SState),
      (∀ e ∈ evs, e.isPull = false) →
      0 < s.mPrevSampleTimeUs →
      runEvents cfg s evs = some (bs, sf) →
      List.Chain' (fun a b => a.keyTimeUs < b.keyTimeUs) bs ∧
      ∀ b ∈ bs, s.mPrevSampleTimeUs ≤ b.keyTimeUs := by
  intro evs
  induction evs with
  | nil =>
    intro s bs sf _ _ h
    unfold runEvents at h
    injection h with hp
    injection hp with hbs hsf
    subst hbs
    exact ⟨List.chain'_nil, by intro b hb; exact absurd hb (List.not_mem_nil b)⟩
  | cons e rest ih =>
    intro s bs sf hall hcur h
    unfold runEvents at h
    cases hstep : stepEvent cfg s e with
    | none => rw [hstep] at h; exact Option.noConfusion h
    | some p =>
      obtain ⟨b0, s1⟩ := p
      rw [hstep] at h
      dsimp only at h
      cases hrun : runEvents cfg s1 rest with
      | none => rw [hrun] at h; exact Option.noConfusion h
      | some q =>
        obtain ⟨bs1, sf1⟩ := q
        rw [hrun] at h
        dsimp only at h
        injection h with hp
        injection hp with hbs hsf
        subst hbs
        subst hsf
        have he : e.isPull = false := hall e (List.mem_cons_self e rest)
        cases e with
        | pullEv rt opts iters => exact Bool.noConfusion he
        | pushEv t l sz smp =>
          unfold stepEvent at hstep
          dsimp only at hstep
          cases hq : dataCallbackTimestamp cfg s t l sz smp with
          | fatal => rw [hq] at hstep; exact Option.noConfusion hstep
          | dropped s2 => rw [hq] at hstep; exact Option.noConfusion hstep
          | queued b1 s2 =>
            rw [hq] at hstep
            dsimp only at hstep
            injection hstep with hp2
            injection hp2 with hb0 hs1
            subst hb0
            subst hs1
            obtain ⟨c1, c2, c3, c4, c5, c6, c7, c8, c9⟩ :=
              push_queued_char cfg s t l sz smp b1 s2 (by omega) hq
            have hdur : 0 < roundedDurationUs cfg.sampleRate b1.rangeLength :=
              roundedDurationUs_pos cfg.sampleRate b1.rangeLength hs1 hs2 (by omega)
            have hall1 : ∀ e2 ∈ rest, e2.isPull = false :=
              fun e2 he2 => hall e2 (List.mem_cons_of_mem _ he2)
            obtain ⟨ihc, ihb⟩ := ih s2 bs1 sf1 hall1 (by omega) hrun
            constructor
            · refine ihc.cons' ?_
              intro y hy
              have hy2 : y ∈ bs1 := by
                rw [List.eq_cons_of_mem_head? hy]
                exact List.mem_cons_self _ _
              have := ihb y hy2
              omega
            · intro b hb
              rcases List.mem_cons.mp hb with hb | hb
              · subst hb
                omega
              · have := ihb b hb
                omega

theorem pullInit_mPrevLostBytes (cfg : Config) (rt : Int) (pos : Nat) (s : SState) :
    (pullInit cfg rt pos s).mPrevLostBytes = s.mPrevLostBytes := by
  unfold pullInit
  dsimp only
  split_ifs <;> rfl

/-- Characterization of the synthetic (lost-data) buffer delivered by a pull
iteration whenever lost bytes are pending: zero fill, byte count capped at the
buffer capacity, 2-byte alignment, and the carryover left behind. -/
theorem pullIterate_lost_char (cfg : Config) (rt : Int) (opts : Option Int)
    (s : SState) (it : PullIter) (b : TimedBuffer) (s' : SState)
    (hl : 0 < it.framesLost * 2 + s.mPrevLostBytes)
    (h : pullIterate cfg rt opts s it = .deliver b s') :
    b.rangeLength = min (it.framesLost * 2 + s.mPrevLostBytes) cfg.kMaxBufferSize ∧
    b.data = .zeros b.rangeLength ∧
    b.rangeLength % 2 = 0 ∧
    b.rangeLength ≤ cfg.kMaxBufferSize ∧
    s'.mPrevLostBytes = it.framesLost * 2 + s.mPrevLostBytes - cfg.kMaxBufferSize := by
  unfold pullIterate at h
  dsimp only at h
  rw [pullInit_mPrevLostBytes cfg rt it.position s] at h
  split_ifs at h with h1 h2 h3 h4 h5 h6 h7 h8 h9 h10 h11 h12 h13 h14
  all_goals try exact IterResult.noConfusion h
  all_goals try exact absurd hl (by assumption)
  all_goals
    injection h with hb hs
    subst hb
    subst hs
    refine ⟨rfl, rfl, ?_, ?_, ?_⟩ <;> dsimp only <;> omega

/-- Cursor advance of a pull delivery in the lost-data branch. -/
theorem pullIterate_cursor_lost (cfg : Config) (rt : Int) (opts : Option Int)
    (s : SState) (it : PullIter) (b : TimedBuffer) (s' : SState)
    (hcur : s.mPrevSampleTimeUs ≠ 0)
    (hl : 0 < it.framesLost * 2 + s.mPrevLostBytes)
    (h : pullIterate cfg rt opts s it = .deliver b s') :
    s'.mPrevSampleTimeUs = s.mPrevSampleTimeUs +
      roundedDurationUs cfg.sampleRate
        (min (it.framesLost * 2 + s.mPrevLostBytes) cfg.kMaxBufferSize) := by
  unfold pullIterate at h
  rw [pullInit_of_cursor_ne cfg rt it.position s hcur] at h
  dsimp only at h
  split_ifs at h with h1 h2 h3 h4 h5 h6 h7 h8 h9 h10 h11 h12 h13 h14
  all_goals try exact IterResult.noConfusion h
  all_goals try exact absurd hl (by assumption)
  all_goals
    injection h with hb hs
    subst hb
    subst hs
    rfl

/-- Cursor advance of a pull delivery in the real-data branch: the duration is
the truncating conversion, not the rounded one. -/
theorem pullIterate_cursor_real (cfg : Config) (rt : Int) (opts : Option Int)
    (s : SState) (it : PullIter) (b : TimedBuffer) (s' : SState)
    (hcur : s.mPrevSampleTimeUs ≠ 0)
    (hl : it.framesLost * 2 + s.mPrevLostBytes = 0)
    (h : pullIterate cfg rt opts s it = .deliver b s') :
    s'.mPrevSampleTimeUs = s.mPrevSampleTimeUs +
      truncatedDurationUs cfg.sampleRate it.readBytes := by
  unfold pullIterate at h
  rw [pullInit_of_cursor_ne cfg rt it.position s hcur] at h
  dsimp only at h
  split_ifs at h with h1 h2 h3 h4 h5 h6 h7 h8 h9 h10 h11 h12 h13 h14
  all_goals try exact IterResult.noConfusion h
  all_goals try exact absurd h1 (by omega)
  all_goals
    injection h with hb hs
    subst hb
    subst hs
    rfl

theorem pushInit_of_recv_pos (cfg : Config) (t : Int) (s : SState)
    (h : 0 < s.mNumFramesReceived) : pushInit cfg t s = s := by
  unfold pushInit
  exact if_neg (fun hc => by omega)

/-- Lost-byte handling of the push path once frames have been received: the
zero prefix is `framesLost * frameSize` with no carryover added, and the
carryover state is not consumed. -/
theorem push_lost_char (cfg : Config) (s : SState) (t : Int) (l sz : Nat)
    (smp : List Int) (b : TimedBuffer) (s' : SState)
    (hrecv : 0 < s.mNumFramesReceived)
    (h : dataCallbackTimestamp cfg s t l sz smp = .queued b s') :
    (0 < l * cfg.frameSize → b.data = .padded (l * cfg.frameSize) smp) ∧
    b.rangeLength = l * cfg.frameSize + sz ∧
    l * cfg.frameSize % 2 = 0 ∧
    s'.mPrevLostBytes = s.mPrevLostBytes ∧
    (∀ (z : Nat) (smp2 : List Int), b.data = .padded z smp2 → z = l * cfg.frameSize) := by
  unfold dataCallbackTimestamp pushDeliver at h
  rw [pushInit_of_recv_pos cfg t s hrecv] at h
  dsimp only at h
  rw [if_pos hrecv] at h
  split_ifs at h with h1 h2 h3 h4 h5 h6 h7 h8
  all_goals try exact PushResult.noConfusion h
  all_goals
    injection h with hb hs
    subst hb
    subst hs
    refine ⟨?_, ?_, ?_, ?_, ?_⟩ <;>
      first
        | (intro hpos; rfl)
        | rfl
        | omega
        | (intro z smp2 hz; injection hz with hz1 hz2; omega)
        | (intro z smp2 hz; exact BufData.noConfusion hz)

/-- Concrete configurations for the sample runs below. -/
def cfgPush : Config := ⟨8000, 1, 2048, 250, 0, 0⟩

def cfgWit : Config := ⟨1000, 1, 2048, 0, 0, 0⟩

def cfg441 : Config := ⟨44100, 1, 2048, 0, 0, 0⟩

def cfgStereo : Config := ⟨8000, 2, 2048, 0, 0, 0⟩

/-- An established mid-session state (anchor set, cursor advanced). -/
def sEst : SState :=
  { freshStarted with mPrevSampleTimeUs := 10, mStartTimeUs := 3, mInitialReadTimeUs := 7 }

/-- `sEst` after some push-mode frames have been received. -/
def sEstRecv : SState :=
  { sEst with mNumFramesReceived := 4 }

/-- A stopped state carrying stale per-session counters, as left behind by a
previous session. -/
def sDirty : SState :=
  { initialState with mPrevLostBytes := 42, mPrevSampleTimeUs := 7, mNumFramesReceived := 5 }

/-- The state after the first `read` of the C3 scenario. -/
def sAfterC3 : SState :=
  { freshStarted with mInitialReadTimeUs := 5000, mPrevSampleTimeUs := 2268 }

/-! ### Claim theorems -/

/-- C1 counterexample: in a pure push-mode session with device latency 250 ms
and no start-time hint, the effective start time becomes 250000 µs and seeds
the media-time cursor, so the claim predicts a first-buffer media timestamp of
`effectiveStartTime + cursor_before = 250000 + 250000 = 500000` µs; the
callback actually attaches `250000` µs — the cursor alone, without the
effective start time added (unlike the pull path). -/
theorem C1_push_timestamp_counterexample :
    (dataCallbackTimestamp cfgPush freshStarted 1000 0 320 []).keyTime? = some 250000 ∧
    (dataCallbackTimestamp cfgPush freshStarted 1000 0 320 []).postStart? = some 250000 ∧
    ¬ (250000 : Int) = 250000 + 250000 :=
  ⟨by decide, by decide, by decide⟩

/-- C1 (amended): once the session's media-time anchor is established
(nonzero cursor), a pull-mode `read` tags every delivered buffer with
`mStartTimeUs + mPrevSampleTimeUs` (the cursor value before this buffer
advanced it), while the push-mode callback tags it with `mPrevSampleTimeUs`
alone (the cursor already carries the effective start time as its seed, so the
two modes differ by `mStartTimeUs`); in both modes the attached drift time is
the wall clock of this delivery minus `mInitialReadTimeUs`, the wall clock
recorded at the session's first data observation. -/
theorem C1_attached_timestamp_and_drift :
    (∀ (cfg : Config) (rt : Int) (opts : Option Int) (s : SState)
        (iters : List PullIter) (k : Int),
      s.mPrevSampleTimeUs ≠ 0 →
      (pullLoop cfg rt opts s iters).keyTime? = some k →
      k = s.mStartTimeUs + s.mPrevSampleTimeUs) ∧
    (∀ (cfg : Config) (rt : Int) (opts : Option Int) (s : SState)
        (iters : List PullIter) (d : Int),
      s.mPrevSampleTimeUs ≠ 0 →
      (pullLoop cfg rt opts s iters).driftTime? = some d →
      d = rt - s.mInitialReadTimeUs) ∧
    (∀ (cfg : Config) (s : SState) (t : Int) (l sz : Nat) (smp : List Int) (k : Int),
      s.mPrevSampleTimeUs ≠ 0 →
      (dataCallbackTimestamp cfg s t l sz smp).keyTime? = some k →
      k = s.mPrevSampleTimeUs) ∧
    (∀ (cfg : Config) (s : SState) (t : Int) (l sz : Nat) (smp : List Int) (d : Int),
      s.mPrevSampleTimeUs ≠ 0 →
      (dataCallbackTimestamp cfg s t l sz smp).driftTime? = some d →
      d = t - s.mInitialReadTimeUs) := by
  refine ⟨?_, ?_, ?_, ?_⟩
  · intro cfg rt opts s iters k hcur hk
    cases hr : pullLoop cfg rt opts s iters with
    | delivered b s1 =>
      rw [hr] at hk
      simp only [ReadResult.keyTime?] at hk
      injection hk with hk
      obtain ⟨c1, _, _, _, _, _, _⟩ := pullLoop_delivered_char cfg rt opts iters s b s1 hcur hr
      omega
    | fatal => rw [hr] at hk; exact Option.noConfusion hk
    | error s1 => rw [hr] at hk; exact Option.noConfusion hk
    | okNull s1 => rw [hr] at hk; exact Option.noConfusion hk
    | outOfTrace => rw [hr] at hk; exact Option.noConfusion hk
  · intro cfg rt opts s iters d hcur hd
    cases hr : pullLoop cfg rt opts s iters with
    | delivered b s1 =>
      rw [hr] at hd
      simp only [ReadResult.driftTime?] at hd
      injection hd with hd
      obtain ⟨_, c2, _, _, _, _, _⟩ := pullLoop_delivered_char cfg rt opts iters s b s1 hcur hr
      omega
    | fatal => rw [hr] at hd; exact Option.noConfusion hd
    | error s1 => rw [hr] at hd; exact Option.noConfusion hd
    | okNull s1 => rw [hr] at hd; exact Option.noConfusion hd
    | outOfTrace => rw [hr] at hd; exact Option.noConfusion hd
  · intro cfg s t l sz smp k hcur hk
    cases hr : dataCallbackTimestamp cfg s t l sz smp with
    | queued b s1 =>
      rw [hr] at hk
      simp only [PushResult.keyTime?] at hk
      injection hk with hk
      obtain ⟨c1, _, _, _, _, _, _, _, _⟩ := push_queued_char cfg s t l sz smp b s1 hcur hr
      omega
    | fatal => rw [hr] at hk; exact Option.noConfusion hk
    | dropped s1 => rw [hr] at hk; exact Option.noConfusion hk
  · intro cfg s t l sz smp d hcur hd
    cases hr : dataCallbackTimestamp cfg s t l sz smp with
    | queued b s1 =>
      rw [hr] at hd
      simp only [PushResult.driftTime?] at hd
      injection hd with hd
      obtain ⟨_, c2, _, _, _, _, _, _, _⟩ := push_queued_char cfg s t l sz smp b s1 hcur hr
      omega
    | fatal => rw [hr] at hd; exact Option.noConfusion hd
    | dropped s1 => rw [hr] at hd; exact Option.noConfusion hd

/-- Witness for C1: a concrete pull delivery carrying timestamp
`13 = mStartTimeUs + mPrevSampleTimeUs` and a concrete push delivery carrying
the bare cursor `10` and drift `893 = 900 - mInitialReadTimeUs`. -/
theorem C1_attached_timestamp_and_drift_witness :
    (pullLoop cfgWit 5000 none sEst [⟨1, 0, 2, [5]⟩]).keyTime? = some 13 ∧
    (13 : Int) = sEst.mStartTimeUs + sEst.mPrevSampleTimeUs ∧
    (dataCallbackTimestamp cfgWit sEstRecv 900 1 2 []).keyTime? = some 10 ∧
    (10 : Int) = sEstRecv.mPrevSampleTimeUs ∧
    (dataCallbackTimestamp cfgWit sEstRecv 900 1 2 []).driftTime? = some 893 ∧
    (893 : Int) = 900 - sEstRecv.mInitialReadTimeUs :=
  ⟨by decide,
   C1_attached_timestamp_and_drift.1 cfgWit 5000 none sEst [⟨1, 0, 2, [5]⟩] 13
     (by decide) (by decide),
   by decide,
   C1_attached_timestamp_and_drift.2.2.1 cfgWit sEstRecv 900 1 2 [] 10
     (by decide) (by decide),
   by decide,
   C1_attached_timestamp_and_drift.2.2.2 cfgWit sEstRecv 900 1 2 [] 893
     (by decide) (by decide)⟩

/-- C2 counterexample: a session that delivers one pull-mode buffer and then
one push-mode buffer (device latency 250 ms, no hint).  The pull buffer is
tagged `mStartTimeUs + cursor = 500000` µs, the following push buffer only
`cursor = 270000` µs — the attached media timestamps decrease. -/
theorem C2_mixed_modes_counterexample :
    deliveredKeyTimes (runEvents cfgPush freshStarted
      [.pullEv 1000000 none [⟨0, 0, 320, []⟩], .pushEv 1030000 0 320 []]) =
      some [500000, 270000] ∧
    ¬ (500000 : Int) < 270000 :=
  ⟨by decide, by decide⟩

/-- C2 (amended): within one started session whose media-time anchor is
established, and whose buffers are all delivered by the same mode (all
pull-mode reads, or all push-mode callbacks), the attached media timestamps
are strictly increasing, for any sample rate in (0, 10^6].  (Mixing the two
modes can make them decrease, because pull attaches
`mStartTimeUs + cursor` while push attaches the cursor alone.) -/
theorem C2_same_mode_strictly_increasing :
    ∀ (cfg : Config) (s : SState) (evs : List SEvent) (ts : List Int),
      0 < cfg.sampleRate → cfg.sampleRate ≤ 1000000 →
      0 < s.mPrevSampleTimeUs →
      ((∀ e ∈ evs, e.isPull = true) ∨ (∀ e ∈ evs, e.isPull = false)) →
      deliveredKeyTimes (runEvents cfg s evs) = some ts →
      List.Chain' (fun a b => a < b) ts := by
  intro cfg s evs ts h1 h2 hcur hmode hts
  unfold deliveredKeyTimes at hts
  cases hr : runEvents cfg s evs with
  | none => rw [hr] at hts; exact Option.noConfusion hts
  | some p =>
    obtain ⟨bs, sf⟩ := p
    rw [hr] at hts
    simp only [Option.map] at hts
    injection hts with hts
    subst hts
    have hchain : List.Chain' (fun a b => a.keyTimeUs < b.keyTimeUs) bs := by
      rcases hmode with hm | hm
      · exact (runEvents_pull_char cfg evs s bs sf hm hcur hr).1
      · exact (runEvents_push_char cfg h1 h2 evs s bs sf hm hcur hr).1
    exact (List.chain'_map TimedBuffer.keyTimeUs).mpr hchain

/-- Witness for C2: a concrete two-read pull-only trace whose delivered
timestamps `[13, 1013]` are strictly increasing. -/
theorem C2_same_mode_strictly_increasing_witness :
    deliveredKeyTimes (runEvents cfgWit sEst
      [.pullEv 100 none [⟨1, 0, 2, []⟩], .pullEv 200 none [⟨2, 0, 2, []⟩]]) =
      some [13, 1013] ∧
    List.Chain' (fun a b => a < b) [(13 : Int), 1013] :=
  ⟨by decide,
   C2_same_mode_strictly_increasing cfgWit sEst
     [.pullEv 100 none [⟨1, 0, 2, []⟩], .pullEv 200 none [⟨2, 0, 2, []⟩]]
     [13, 1013] (by decide) (by decide) (by decide) (Or.inl (by decide)) (by decide)⟩

/-- C3 counterexample: sample rate 44100, mono, device reporting 100 lost
frames then position 0, zero latency and no hint (effective start time 0).
The first `read` delivers 200 zero bytes as claimed, but tags them with
timestamp `0` — the pre-advancement cursor — not with
`start + round(100e6/44100) = 2268` as the claim requires. -/
theorem C3_first_read_timestamp_counterexample :
    (read cfg441 5000 none freshStarted [⟨0, 100, 0, []⟩]).bufData? = some (.zeros 200) ∧
    (read cfg441 5000 none freshStarted [⟨0, 100, 0, []⟩]).range? = some 200 ∧
    (read cfg441 5000 none freshStarted [⟨0, 100, 0, []⟩]).keyTime? = some 0 ∧
    ¬ (0 : Int) = 0 + 2268 :=
  ⟨by decide, by decide, by decide, by decide⟩

/-- C3 (amended): in that scenario the first `read` yields a buffer of 200
zero bytes; the media-time cursor (not the attached tag) is advanced by
`round(100 * 1e6 / 44100) = 2268` µs past the start timestamp, the buffer
itself being tagged with the pre-advancement value
(`mStartTimeUs + seeded cursor = 0`); the advanced value `2268` appears as the
media timestamp of the next delivered buffer. -/
theorem C3_first_read_lost_data :
    (read cfg441 5000 none freshStarted [⟨0, 100, 0, []⟩]).bufData? = some (.zeros 200) ∧
    (read cfg441 5000 none freshStarted [⟨0, 100, 0, []⟩]).range? = some 200 ∧
    (read cfg441 5000 none freshStarted [⟨0, 100, 0, []⟩]).keyTime? = some 0 ∧
    (read cfg441 5000 none freshStarted [⟨0, 100, 0, []⟩]).postCursor? = some 2268 ∧
    roundedDurationUs 44100 200 = 2268 ∧
    (read cfg441 6000 none sAfterC3 [⟨100, 0, 2, []⟩]).keyTime? = some 2268 :=
  ⟨by decide, by decide, by decide, by decide, by decide, by decide⟩

/-- The state left behind by the first pull-mode `read` of a fresh 8 kHz
session with 250 ms latency, and the buffer it handed to the consumer. -/
def sAfterPull : SState :=
  { freshStarted with mInitialReadTimeUs := 1000, mStartTimeUs := 250000, mPrevSampleTimeUs := 270000 }

def bufAfterPull : TimedBuffer :=
  { data := .pcm [], rangeLength := 320, anchorTimeUs := some 250000, keyTimeUs := 500000, driftTimeUs := 0 }

/-- C4 (code bug): `mNumClientOwnedBuffers` is decremented by
`signalBufferReturned` but never incremented anywhere — in particular not by a
`read` that hands a buffer to the consumer.  Hence after a successful `read`
the counter is still 0 and the `waitOutstandingEncodingFrames_l` loop
condition is already false, so `stop()` proceeds without blocking even though
the consumer still holds the buffer. -/
theorem C4_stop_does_not_wait_for_outstanding_buffer :
    start false none true initialState = .ok freshStarted ∧
    (read cfgPush 1000 none freshStarted [⟨0, 0, 320, []⟩]).isDelivered = true ∧
    (read cfgPush 1000 none freshStarted [⟨0, 0, 320, []⟩]).postClientOwned? = some 0 ∧
    waitOutstandingWouldBlock sAfterPull = false ∧
    (read cfgPush 1000 none freshStarted [⟨0, 0, 320, []⟩]) =
      .delivered bufAfterPull sAfterPull :=
  ⟨by decide, by decide, by decide, by decide, by decide⟩

/-- C5 counterexample: with a synthesized lost-data timestamp of 2268 µs, a
skip-forward request to 1002268 µs exceeds it by exactly the 1-second
threshold — not by more than it — yet `skipFrame` reports the out-of-range
condition and `read` fails, because the code tests `>= 1E6`, not `> 1E6`. -/
theorem C5_skip_threshold_counterexample :
    (read cfg441 5000 (some 1002268) freshStarted [⟨0, 100, 0, []⟩]).isError = true ∧
    skipFrame 2268 (some 1002268) = -1 ∧
    ¬ (1002268 : Int) - 2268 > 1000000 :=
  ⟨by decide, by decide, by decide⟩

/-- C5 (amended): `skipFrame` reports the out-of-range failure iff the
requested target exceeds the computed timestamp by at least (not strictly more
than) one second, and requests it skip handling (`read` loops internally) iff
the excess is positive but below one second; concretely, a lost-data iteration
with a 732 µs excess continues the loop and one with a 1000001 µs excess
returns the error. -/
theorem C5_skip_threshold_semantics :
    (∀ (ts : Int) (opts : Option Int),
      skipFrame ts opts = -1 ↔ ∃ sk, opts = some sk ∧ ts < sk ∧ 1000000 ≤ sk - ts) ∧
    (∀ (ts : Int) (opts : Option Int),
      skipFrame ts opts = 1 ↔ ∃ sk, opts = some sk ∧ ts < sk ∧ sk - ts < 1000000) ∧
    (pullIterate cfg441 5000 (some 3000) freshStarted ⟨0, 100, 0, []⟩).isContinue = true ∧
    (pullIterate cfg441 5000 (some 1002269) freshStarted ⟨0, 100, 0, []⟩).isReadError
      = true := by
  refine ⟨?_, ?_, by decide, by decide⟩
  · intro ts opts
    cases opts with
    | none =>
      simp only [skipFrame]
      constructor
      · intro h
        exact absurd h (by decide)
      · rintro ⟨sk, hsk, _, _⟩
        exact Option.noConfusion hsk
    | some sk =>
      simp only [skipFrame]
      split_ifs with hle hth
      · constructor
        · intro h
          exact absurd h (by decide)
        · rintro ⟨sk2, hsk, h3, h4⟩
          injection hsk with hsk
          omega
      · constructor
        · intro _
          exact ⟨sk, rfl, by omega, hth⟩
        · intro _
          rfl
      · constructor
        · intro h
          exact absurd h (by decide)
        · rintro ⟨sk2, hsk, h3, h4⟩
          injection hsk with hsk
          omega
  · intro ts opts
    cases opts with
    | none =>
      simp only [skipFrame]
      constructor
      · intro h
        exact absurd h (by decide)
      · rintro ⟨sk, hsk, _, _⟩
        exact Option.noConfusion hsk
    | some sk =>
      simp only [skipFrame]
      split_ifs with hle hth
      · constructor
        · intro h
          exact absurd h (by decide)
        · rintro ⟨sk2, hsk, h3, h4⟩
          injection hsk with hsk
          omega
      · constructor
        · intro h
          exact absurd h (by decide)
        · rintro ⟨sk2, hsk, h3, h4⟩
          injection hsk with hsk
          omega
      · constructor
        · intro _
          exact ⟨sk, rfl, by omega, by omega⟩
        · intro _
          rfl

/-- Witness for C5: the threshold boundary at exactly one second triggers the
error code, and one microsecond below it triggers skip handling. -/
theorem C5_skip_threshold_semantics_witness :
    skipFrame 0 (some 1000000) = -1 ∧ skipFrame 0 (some 999999) = 1 :=
  ⟨(C5_skip_threshold_semantics.1 0 (some 1000000)).mpr
      ⟨1000000, rfl, by decide, by decide⟩,
   (C5_skip_threshold_semantics.2.1 0 (some 999999)).mpr
      ⟨999999, rfl, by decide, by decide⟩⟩

/-- C6 counterexample: pull mode with 2 channels and 1 lost frame converts to
`1 << 1 = 2` bytes — the channel count is not part of the pull-mode
conversion — while the claim requires `1 * 2 * 2 = 4` bytes. -/
theorem C6_stereo_lost_bytes_counterexample :
    (read cfgStereo 1000 none freshStarted [⟨0, 1, 0, []⟩]).range? = some 2 ∧
    (read cfgStereo 1000 none freshStarted [⟨0, 1, 0, []⟩]).bufData? = some (.zeros 2) ∧
    ¬ (2 : Nat) = 1 * 2 * 2 :=
  ⟨by decide, by decide, by decide⟩

/-- C6 (amended): the pull path converts lost frames at 2 bytes per frame
regardless of channel count and adds the pending carryover (capping the total
at the buffer capacity), while the push path converts at the device frame
size (2 bytes per sample times channel count) and adds no carryover — the
carryover state is not even consumed there. -/
theorem C6_lost_byte_conversion :
    (∀ (cfg : Config) (rt : Int) (opts : Option Int) (s : SState) (it : PullIter)
        (nb : Nat),
      0 < it.framesLost * 2 + s.mPrevLostBytes →
      (pullIterate cfg rt opts s it).range? = some nb →
      nb = min (it.framesLost * 2 + s.mPrevLostBytes) cfg.kMaxBufferSize ∧
      (pullIterate cfg rt opts s it).bufData? = some (.zeros nb)) ∧
    (∀ (cfg : Config) (s : SState) (t : Int) (l sz : Nat) (smp : List Int) (d : BufData),
      0 < s.mNumFramesReceived →
      0 < l * cfg.frameSize →
      (dataCallbackTimestamp cfg s t l sz smp).bufData? = some d →
      d = .padded (l * cfg.frameSize) smp ∧
      (dataCallbackTimestamp cfg s t l sz smp).postPrevLostBytes? =
        some s.mPrevLostBytes) ∧
    (∀ cfg : Config, cfg.frameSize = 2 * cfg.channelCount) := by
  refine ⟨?_, ?_, fun cfg => rfl⟩
  · intro cfg rt opts s it nb hl hnb
    cases hr : pullIterate cfg rt opts s it with
    | deliver b s1 =>
      rw [hr] at hnb
      simp only [IterResult.range?] at hnb
      injection hnb with hnb
      obtain ⟨c1, c2, _, _, _⟩ := pullIterate_lost_char cfg rt opts s it b s1 hl hr
      subst hnb
      refine ⟨c1, ?_⟩
      simp only [IterResult.bufData?]
      rw [c2]
    | fatal => rw [hr] at hnb; exact Option.noConfusion hnb
    | readError s1 => rw [hr] at hnb; exact Option.noConfusion hnb
    | continueLoop s1 => rw [hr] at hnb; exact Option.noConfusion hnb
  · intro cfg s t l sz smp d hrecv hpos hd
    cases hr : dataCallbackTimestamp cfg s t l sz smp with
    | queued b s1 =>
      rw [hr] at hd
      simp only [PushResult.bufData?] at hd
      injection hd with hd
      obtain ⟨c1, _, _, c4, _⟩ := push_lost_char cfg s t l sz smp b s1 hrecv hr
      subst hd
      refine ⟨c1 hpos, ?_⟩
      simp only [PushResult.postPrevLostBytes?]
      rw [c4]
    | fatal => rw [hr] at hd; exact Option.noConfusion hd
    | dropped s1 => rw [hr] at hd; exact Option.noConfusion hd

/-- Witness for C6: one lost stereo frame in pull mode yields a 2-byte
synthetic buffer, the same frame in push mode a 4-byte zero prefix. -/
theorem C6_lost_byte_conversion_witness :
    (pullIterate cfgStereo 1000 none freshStarted ⟨0, 1, 0, []⟩).range? = some 2 ∧
    (2 : Nat) = min (1 * 2 + freshStarted.mPrevLostBytes) cfgStereo.kMaxBufferSize ∧
    (dataCallbackTimestamp cfgStereo sEstRecv 900 1 2 []).bufData? =
      some (.padded 4 []) ∧
    (BufData.padded 4 [] : BufData) = .padded (1 * cfgStereo.frameSize) [] :=
  ⟨by decide,
   (C6_lost_byte_conversion.1 cfgStereo 1000 none freshStarted ⟨0, 1, 0, []⟩ 2
      (by decide) (by decide)).1,
   by decide,
   (C6_lost_byte_conversion.2.1 cfgStereo sEstRecv 900 1 2 [] (.padded 4 [])
      (by decide) (by decide) (by decide)).1⟩

/-- C7 counterexample: a 2-byte (one sample) device read at 44100 Hz advances
the cursor by `(1000000 * 2 / 2) / 44100 = 22` µs — truncating division —
whereas the claimed rounded formula gives `(1 * 1000000 + 22050) / 44100 = 23`
µs. -/
theorem C7_real_path_truncation_counterexample :
    (read cfg441 5000 none freshStarted [⟨0, 0, 2, [9]⟩]).postCursor? = some 22 ∧
    (read cfg441 5000 none freshStarted [⟨0, 0, 2, [9]⟩]).keyTime? = some 0 ∧
    truncatedDurationUs 44100 2 = 22 ∧
    ¬ (22 : Int) = (1 * 1000000 + 44100 / 2) / 44100 :=
  ⟨by decide, by decide, by decide, by decide⟩

/-- C7 (amended): the lost-data pull branch and the push path advance the
cursor by the rounded conversion
`(1000000 * (bytes/2) + sampleRate/2) / sampleRate`, but the real-data pull
branch advances it by the truncating conversion
`(1000000 * n / 2) / sampleRate` without the rounding addend; at 44100 Hz and
one sample the two differ (22 vs 23). -/
theorem C7_duration_conversion :
    (∀ (cfg : Config) (rt : Int) (opts : Option Int) (s : SState) (it : PullIter)
        (c : Int),
      s.mPrevSampleTimeUs ≠ 0 →
      0 < it.framesLost * 2 + s.mPrevLostBytes →
      (pullIterate cfg rt opts s it).postCursor? = some c →
      c = s.mPrevSampleTimeUs + roundedDurationUs cfg.sampleRate
            (min (it.framesLost * 2 + s.mPrevLostBytes) cfg.kMaxBufferSize)) ∧
    (∀ (cfg : Config) (rt : Int) (opts : Option Int) (s : SState) (it : PullIter)
        (c : Int),
      s.mPrevSampleTimeUs ≠ 0 →
      it.framesLost * 2 + s.mPrevLostBytes = 0 →
      (pullIterate cfg rt opts s it).postCursor? = some c →
      c = s.mPrevSampleTimeUs + truncatedDurationUs cfg.sampleRate it.readBytes) ∧
    (∀ (cfg : Config) (s : SState) (t : Int) (l sz : Nat) (smp : List Int)
        (nb : Nat) (c : Int),
      s.mPrevSampleTimeUs ≠ 0 →
      (dataCallbackTimestamp cfg s t l sz smp).range? = some nb →
      (dataCallbackTimestamp cfg s t l sz smp).postCursor? = some c →
      c = s.mPrevSampleTimeUs + roundedDurationUs cfg.sampleRate nb) ∧
    truncatedDurationUs 44100 2 = 22 ∧
    roundedDurationUs 44100 2 = 23 := by
  refine ⟨?_, ?_, ?_, by decide, by decide⟩
  · intro cfg rt opts s it c hcur hl hc
    cases hr : pullIterate cfg rt opts s it with
    | deliver b s1 =>
      rw [hr] at hc
      simp only [IterResult.postCursor?] at hc
      injection hc with hc
      have := pullIterate_cursor_lost cfg rt opts s it b s1 hcur hl hr
      omega
    | fatal => rw [hr] at hc; exact Option.noConfusion hc
    | readError s1 => rw [hr] at hc; exact Option.noConfusion hc
    | continueLoop s1 => rw [hr] at hc; exact Option.noConfusion hc
  · intro cfg rt opts s it c hcur hl hc
    cases hr : pullIterate cfg rt opts s it with
    | deliver b s1 =>
      rw [hr] at hc
      simp only [IterResult.postCursor?] at hc
      injection hc with hc
      have := pullIterate_cursor_real cfg rt opts s it b s1 hcur hl hr
      omega
    | fatal => rw [hr] at hc; exact Option.noConfusion hc
    | readError s1 => rw [hr] at hc; exact Option.noConfusion hc
    | continueLoop s1 => rw [hr] at hc; exact Option.noConfusion hc
  · intro cfg s t l sz smp nb c hcur hnb hc
    cases hr : dataCallbackTimestamp cfg s t l sz smp with
    | queued b s1 =>
      rw [hr] at hnb hc
      simp only [PushResult.range?] at hnb
      simp only [PushResult.postCursor?] at hc
      injection hnb with hnb
      injection hc with hc
      obtain ⟨_, _, _, _, c5, _, _, _, _⟩ := push_queued_char cfg s t l sz smp b s1 hcur hr
      subst hnb
      omega
    | fatal => rw [hr] at hnb; exact Option.noConfusion hnb
    | dropped s1 => rw [hr] at hnb; exact Option.noConfusion hnb

/-- Witness for C7: concrete lost-data, real-data and push deliveries whose
cursor advances are the respective formulas (2000, 1000 and 2000 µs at a
1 kHz sample rate). -/
theorem C7_duration_conversion_witness :
    (pullIterate cfgWit 50 none sEst ⟨3, 2, 0, []⟩).postCursor? = some 2010 ∧
    (2010 : Int) = sEst.mPrevSampleTimeUs + roundedDurationUs cfgWit.sampleRate
      (min (2 * 2 + sEst.mPrevLostBytes) cfgWit.kMaxBufferSize) ∧
    (pullIterate cfgWit 50 none sEst ⟨3, 0, 2, []⟩).postCursor? = some 1010 ∧
    (1010 : Int) = sEst.mPrevSampleTimeUs + truncatedDurationUs cfgWit.sampleRate 2 ∧
    (dataCallbackTimestamp cfgWit sEstRecv 900 1 2 []).postCursor? = some 2010 ∧
    (2010 : Int) = sEstRecv.mPrevSampleTimeUs + roundedDurationUs cfgWit.sampleRate 4 :=
  ⟨by decide,
   C7_duration_conversion.1 cfgWit 50 none sEst ⟨3, 2, 0, []⟩ 2010
     (by decide) (by decide) (by decide),
   by decide,
   C7_duration_conversion.2.1 cfgWit 50 none sEst ⟨3, 0, 2, []⟩ 1010
     (by decide) (by decide) (by decide),
   by decide,
   C7_duration_conversion.2.2.1 cfgWit sEstRecv 900 1 2 [] 4 2010
     (by decide) (by decide) (by decide)⟩

/-- The session state after amplitude tracking has been activated and a
buffer containing the most negative 16-bit sample has been scanned. -/
def sTrackMin : SState :=
  { freshStarted with mTrackMaxAmplitude := true,
                      mMaxAmplitude := trackMaxAmplitude 0 [(-32768 : Int)] }

/-- C8 counterexample: scanning a buffer whose sample is `-32768` leaves the
peak at 0 — `int16_t` negation wraps `-(-32768)` back to `-32768`, which never
exceeds the running maximum — so the next `getMaxAmplitude` call returns 0,
not the absolute value 32768 the claim requires (which cannot even be
represented in the `int16_t` return type). -/
theorem C8_min_int16_counterexample :
    trackMaxAmplitude 0 [(-32768 : Int)] = 0 ∧
    (getMaxAmplitude sTrackMin).1 = 0 ∧
    ¬ (0 : Int) = 32768 :=
  ⟨by decide, by decide, by decide⟩

theorem getMaxAmplitude_fst (s : SState) : (getMaxAmplitude s).1 = s.mMaxAmplitude := by
  unfold getMaxAmplitude
  split_ifs <;> rfl

theorem getMaxAmplitude_snd_max (s : SState) :
    (getMaxAmplitude s).2.mMaxAmplitude = 0 := by
  unfold getMaxAmplitude
  split_ifs <;> rfl

theorem getMaxAmplitude_snd_track (s : SState) :
    (getMaxAmplitude s).2.mTrackMaxAmplitude = true := by
  unfold getMaxAmplitude
  split_ifs with h
  · exact h
  · rfl

/-- C8 (amended): `start` leaves tracking off with a zero peak, so any
`getMaxAmplitude` call before activation returns 0 and activates tracking;
after activation a sample `v` with `-32767 ≤ v < 0` drives the peak to `-v`,
the next call returns the peak and resets it, and the call after that returns
0; the single exception is `-32768`, whose `int16_t` negation wraps to itself
and therefore never raises the peak. -/
theorem C8_max_amplitude_semantics :
    (∀ (st : Bool) (hint : Option Int) (ok : Bool) (s s' : SState),
      start st hint ok s = .ok s' →
      s'.mTrackMaxAmplitude = false ∧ s'.mMaxAmplitude = 0) ∧
    (∀ s : SState,
      (getMaxAmplitude s).1 = s.mMaxAmplitude ∧
      (getMaxAmplitude s).2.mTrackMaxAmplitude = true ∧
      (getMaxAmplitude s).2.mMaxAmplitude = 0) ∧
    (∀ v : Int, -32767 ≤ v → v < 0 → trackMaxAmplitude 0 [v] = -v) ∧
    (∀ s : SState, (getMaxAmplitude (getMaxAmplitude s).2).1 = 0) ∧
    trackMaxAmplitude 0 [(-32768 : Int)] = 0 := by
  refine ⟨?_, ?_, ?_, ?_, by decide⟩
  · intro st hint ok s s' h
    unfold start at h
    dsimp only at h
    split_ifs at h with h1 h2 h3
    all_goals try exact StartResult.noConfusion h
    all_goals
      injection h with hs
      subst hs
      exact ⟨rfl, rfl⟩
  · intro s
    exact ⟨getMaxAmplitude_fst s, getMaxAmplitude_snd_track s, getMaxAmplitude_snd_max s⟩
  · intro v h1 h2
    unfold trackMaxAmplitude toInt16
    simp only [List.foldl_cons, List.foldl_nil]
    split_ifs with h3 h4 <;> omega
  · intro s
    rw [getMaxAmplitude_fst, getMaxAmplitude_snd_max]

/-- Witness for C8: a fresh `start` leaves the tracker off with a zero peak,
and a `-1234` sample drives the peak to `1234`. -/
theorem C8_max_amplitude_semantics_witness :
    start false none true initialState = .ok freshStarted ∧
    freshStarted.mTrackMaxAmplitude = false ∧
    freshStarted.mMaxAmplitude = 0 ∧
    trackMaxAmplitude 0 [(-1234 : Int)] = -(-1234) :=
  ⟨by decide,
   (C8_max_amplitude_semantics.1 false none true initialState freshStarted (by decide)).1,
   (C8_max_amplitude_semantics.1 false none true initialState freshStarted (by decide)).2,
   C8_max_amplitude_semantics.2.2.1 (-1234) (by decide) (by decide)⟩

/-- `sDirty` with the session marked started — exactly what `start` produces
on it, since none of its stale counters are reset. -/
def sDirtyStarted : SState :=
  { sDirty with mStarted := true }

/-- C9 counterexample: a successful `start` on a state carrying a stale
lost-byte carryover of 42, a previous-sample media time of 7 and a received
frame count of 5 leaves all three untouched — they are reset only by the
constructor, not by `start`. -/
theorem C9_start_reset_counterexample :
    (start false none true sDirty).post? = some sDirtyStarted ∧
    sDirtyStarted.mPrevLostBytes = 42 ∧
    sDirtyStarted.mPrevSampleTimeUs = 7 ∧
    sDirtyStarted.mNumFramesReceived = 5 ∧
    ¬ (42 : Nat) = 0 :=
  ⟨by decide, by decide, by decide, by decide, by decide⟩

/-- C9 (amended): a successful `start` resets the max-amplitude flag and
peak and the initial-read-time anchor, records the caller's start-time hint
(zero when absent), and marks the session started — but it preserves the
lost-byte carryover, the previous-sample media time and the received frame
count from any earlier session. -/
theorem C9_start_resets_and_preserves :
    ∀ (st : Bool) (hint : Option Int) (ok : Bool) (s s' : SState),
      start st hint ok s = .ok s' →
      s'.mStarted = true ∧
      s'.mTrackMaxAmplitude = false ∧
      s'.mMaxAmplitude = 0 ∧
      s'.mInitialReadTimeUs = 0 ∧
      s'.mStartTimeUs = (match hint with | some t => t | none => 0) ∧
      s'.mPrevLostBytes = s.mPrevLostBytes ∧
      s'.mPrevSampleTimeUs = s.mPrevSampleTimeUs ∧
      s'.mNumFramesReceived = s.mNumFramesReceived := by
  intro st hint ok s s' h
  unfold start at h
  dsimp only at h
  split_ifs at h with h1 h2 h3
  all_goals try exact StartResult.noConfusion h
  all_goals
    injection h with hs
    subst hs
    exact ⟨rfl, rfl, rfl, rfl, rfl, rfl, rfl, rfl⟩

/-- Witness for C9: `start` on the stale state `sDirty` succeeds and
preserves its carryover, cursor and frame count. -/
theorem C9_start_resets_and_preserves_witness :
    start false none true sDirty = .ok sDirtyStarted ∧
    sDirtyStarted.mPrevLostBytes = sDirty.mPrevLostBytes ∧
    sDirtyStarted.mPrevSampleTimeUs = sDirty.mPrevSampleTimeUs ∧
    sDirtyStarted.mNumFramesReceived = sDirty.mNumFramesReceived :=
  ⟨by decide,
   (C9_start_resets_and_preserves false none true sDirty sDirtyStarted
      (by decide)).2.2.2.2.2.1,
   (C9_start_resets_and_preserves false none true sDirty sDirtyStarted
      (by decide)).2.2.2.2.2.2.1,
   (C9_start_resets_and_preserves false none true sDirty sDirtyStarted
      (by decide)).2.2.2.2.2.2.2⟩

/-- C10 counterexample: a single report of 10000 lost frames (20000 bytes)
caps the synthetic buffer at the 2048-byte capacity and leaves a carryover of
17952 bytes — far more than one buffer's capacity. -/
theorem C10_carryover_exceeds_capacity_counterexample :
    (read cfg441 5000 none freshStarted [⟨0, 10000, 0, []⟩]).postPrevLostBytes? =
      some 17952 ∧
    cfg441.kMaxBufferSize = 2048 ∧
    ¬ (17952 : Nat) ≤ 2048 :=
  ⟨by decide, by decide, by decide⟩

/-- C10 (amended): the byte count attached to a synthetic pull-mode buffer is
even (given the even capacity and an even pending carryover) and never
exceeds one buffer's capacity, and the carryover left behind stays even; but
the carryover itself is the uncapped excess
`lostFrames * 2 + previousCarry - capacity` and can exceed the capacity
arbitrarily.  The zero prefix of a push-mode buffer is likewise even. -/
theorem C10_lost_byte_alignment_and_carryover :
    (∀ (cfg : Config) (rt : Int) (opts : Option Int) (s : SState) (it : PullIter)
        (nb carry : Nat),
      0 < it.framesLost * 2 + s.mPrevLostBytes →
      s.mPrevLostBytes % 2 = 0 →
      cfg.kMaxBufferSize % 2 = 0 →
      (pullIterate cfg rt opts s it).range? = some nb →
      (pullIterate cfg rt opts s it).postPrevLostBytes? = some carry →
      nb % 2 = 0 ∧ nb ≤ cfg.kMaxBufferSize ∧ carry % 2 = 0 ∧
      carry = it.framesLost * 2 + s.mPrevLostBytes - cfg.kMaxBufferSize) ∧
    (∀ (cfg : Config) (s : SState) (t : Int) (l sz : Nat) (smp : List Int)
        (z : Nat) (smp2 : List Int),
      0 < s.mNumFramesReceived →
      (dataCallbackTimestamp cfg s t l sz smp).bufData? = some (.padded z smp2) →
      z % 2 = 0) := by
  constructor
  · intro cfg rt opts s it nb carry hl he1 he2 hnb hcarry
    cases hr : pullIterate cfg rt opts s it with
    | deliver b s1 =>
      rw [hr] at hnb hcarry
      simp only [IterResult.range?] at hnb
      simp only [IterResult.postPrevLostBytes?] at hcarry
      injection hnb with hnb
      injection hcarry with hcarry
      obtain ⟨c1, _, c3, c4, c5⟩ := pullIterate_lost_char cfg rt opts s it b s1 hl hr
      subst hnb
      subst hcarry
      refine ⟨c3, c4, ?_, c5⟩
      omega
    | fatal => rw [hr] at hnb; exact Option.noConfusion hnb
    | readError s1 => rw [hr] at hnb; exact Option.noConfusion hnb
    | continueLoop s1 => rw [hr] at hnb; exact Option.noConfusion hnb
  · intro cfg s t l sz smp z smp2 hrecv hd
    cases hr : dataCallbackTimestamp cfg s t l sz smp with
    | queued b s1 =>
      rw [hr] at hd
      simp only [PushResult.bufData?] at hd
      injection hd with hd
      obtain ⟨_, _, c3, _, c5⟩ := push_lost_char cfg s t l sz smp b s1 hrecv hr
      have := c5 z smp2 hd
      omega
    | fatal => rw [hr] at hd; exact Option.noConfusion hd
    | dropped s1 => rw [hr] at hd; exact Option.noConfusion hd

/-- Witness for C10: the 10000-lost-frame iteration delivers the 2048-byte
capped, even, zero-filled buffer and leaves the even carryover 17952; the
stereo push delivery carries an even 4-byte zero prefix. -/
theorem C10_lost_byte_alignment_and_carryover_witness :
    (pullIterate cfg441 5000 none freshStarted ⟨0, 10000, 0, []⟩).range? = some 2048 ∧
    (pullIterate cfg441 5000 none freshStarted ⟨0, 10000, 0, []⟩).postPrevLostBytes? =
      some 17952 ∧
    ((2048 : Nat) % 2 = 0 ∧ (2048 : Nat) ≤ cfg441.kMaxBufferSize ∧
      (17952 : Nat) % 2 = 0 ∧
      (17952 : Nat) = 10000 * 2 + freshStarted.mPrevLostBytes - cfg441.kMaxBufferSize) ∧
    (dataCallbackTimestamp cfgStereo sEstRecv 901 1 2 []).bufData? =
      some (.padded 4 []) ∧
    (4 : Nat) % 2 = 0 :=
  ⟨by decide, by decide,
   C10_lost_byte_alignment_and_carryover.1 cfg441 5000 none freshStarted
     ⟨0, 10000, 0, []⟩ 2048 17952 (by decide) (by decide) (by decide)
     (by decide) (by decide),
   by decide,
   C10_lost_byte_alignment_and_carryover.2 cfgStereo sEstRecv 901 1 2 [] 4 []
     (by decide) (by decide)⟩

end AudioSourceModel
